import Mathlib

/-
Shallow embedding of the `ab_versions` crate (src/lib.rs), which inspects
and patches FactoryTalk View compound-container files.

A container is modelled as an association list from stream names to byte
sequences (bytes as `Nat`); a filesystem is an association list from paths
to containers.  `cfb::open` / `open_rw` become lookups, `open_stream` a
lookup that fails with `NotFound`, `create_new_stream` an append that fails
with `AlreadyExists` when the stream exists.  A stream handle's cursor is
always at offset 0 at the point the code writes, so `set_len` and
`write_all` become the pure byte-sequence operations `setLenBytes` and
`writeAt0`.  Fallible Rust functions returning `Result<_, FtvFileError>`
become `Except FtvFileError _`; stripping returns the updated filesystem.
-/

namespace AbVersions

/-- A byte sequence (stream contents); each entry is a byte value. -/
abbrev Bytes := List Nat

/-- Mirrors `FTypeError` in src/lib.rs. -/
inductive FTypeError where
  | NoVersion
  | InvalidVersion
deriving DecidableEq, Repr

/-- The `std::io::ErrorKind` values distinguished by the code. -/
inductive IoErrorKind where
  | NotFound
  | AlreadyExists
  | Other
deriving DecidableEq, Repr

/-- Mirrors `FtvFileError` in src/lib.rs: an I/O error or a file-type error. -/
inductive FtvFileError where
  | IoError (kind : IoErrorKind)
  | FileTypeError (e : FTypeError)
deriving DecidableEq, Repr

/-- Mirrors `FileVersion` in src/lib.rs; the fields are raw bytes. -/
structure FileVersion where
  major_rev : Nat
  minor_rev : Nat
deriving DecidableEq, Repr

/-- Mirrors `FileVersion::is_old`: `self.major_rev < 5`. -/
def FileVersion.is_old (v : FileVersion) : Bool :=
  v.major_rev < 5

/-- Mirrors `FileVersion::is_restorable`: `self.major_rev >= 4`. -/
def FileVersion.is_restorable (v : FileVersion) : Bool :=
  v.major_rev ≥ 4

/-- Lookup in an association list keyed by stream/file name. -/
def findAssoc {α : Type} : List (String × α) → String → Option α
  | [], _ => none
  | p :: rest, k => if p.1 = k then some p.2 else findAssoc rest k

/-- Replace the value stored under `k` (no-op when `k` is absent). -/
def updAssoc {α : Type} : List (String × α) → String → α → List (String × α)
  | [], _, _ => []
  | p :: rest, k, v =>
    if p.1 = k then (k, v) :: updAssoc rest k v else p :: updAssoc rest k v

/-- A compound container: named streams, each an independent byte sequence. -/
structure Container where
  streams : List (String × Bytes)
deriving DecidableEq, Repr

/-- Stream lookup inside a container. -/
def Container.getStream (c : Container) (name : String) : Option Bytes :=
  findAssoc c.streams name

/-- Replace the contents of an existing stream. -/
def Container.setStream (c : Container) (name : String) (b : Bytes) : Container :=
  ⟨updAssoc c.streams name b⟩

/-- Mirrors `CompoundFile::open_stream`: fails with `NotFound` when absent. -/
def Container.openStream (c : Container) (name : String) : Except IoErrorKind Bytes :=
  match c.getStream name with
  | some b => Except.ok b
  | none => Except.error IoErrorKind.NotFound

/-- Mirrors `CompoundFile::create_new_stream`: fails with `AlreadyExists`
when the stream is present, otherwise adds an empty stream. -/
def Container.createNewStream (c : Container) (name : String) :
    Except IoErrorKind Container :=
  match c.getStream name with
  | some _ => Except.error IoErrorKind.AlreadyExists
  | none => Except.ok ⟨c.streams ++ [(name, [])]⟩

/-- The filesystem visible to `cfb::open`: paths mapped to containers. -/
abbrev FileSystem := List (String × Container)

/-- Mirrors `cfb::open`: fails when the path has no container. -/
def cfbOpen (fs : FileSystem) (path : String) : Except IoErrorKind Container :=
  match findAssoc fs path with
  | some c => Except.ok c
  | none => Except.error IoErrorKind.NotFound

/-- Mirrors `cfb::open_rw`; opening for read-write reads the same container. -/
def cfbOpenRw : FileSystem → String → Except IoErrorKind Container :=
  cfbOpen

/-- Write the container back to its path after mutation. -/
def setFile (fs : FileSystem) (path : String) (c : Container) : FileSystem :=
  updAssoc fs path c

/-- Mirrors `Stream::set_len n` on a handle whose cursor is at 0: truncate
to `n` bytes or zero-extend up to `n` bytes. -/
def setLenBytes (n : Nat) (b : Bytes) : Bytes :=
  b.take n ++ List.replicate (n - b.length) 0

/-- Mirrors `Stream::write_all data` on a handle whose cursor is at 0:
overwrite the first `data.length` bytes, keeping any tail beyond them. -/
def writeAt0 (data : Bytes) (b : Bytes) : Bytes :=
  data ++ b.drop data.length

/-- Mirrors `get_version` in src/lib.rs: open the container, open
`/VERSION_INFORMATION` (absence maps to `NoVersion`), require exactly 3
bytes (`InvalidVersion` otherwise), decode byte 1 as `major_rev` and
byte 2 as `minor_rev`. -/
def get_version (fs : FileSystem) (filename : String) :
    Except FtvFileError FileVersion :=
  match cfbOpen fs filename with
  | Except.error k => Except.error (FtvFileError.IoError k)
  | Except.ok file =>
    match file.openStream "/VERSION_INFORMATION" with
    | Except.error IoErrorKind.NotFound =>
        Except.error (FtvFileError.FileTypeError FTypeError.NoVersion)
    | Except.error k => Except.error (FtvFileError.IoError k)
    | Except.ok version_data =>
      if version_data.length = 3 then
        Except.ok
          { major_rev := version_data.getD 1 0
            minor_rev := version_data.getD 2 0 }
      else
        Except.error (FtvFileError.FileTypeError FTypeError.InvalidVersion)

/-- Mirrors `is_protected` in src/lib.rs: open the container, open
`/FILE_PROTECTION` (absence propagates as an I/O error), then decide from
the stream length, reading the bytes only in the length-7 case. -/
def is_protected (fs : FileSystem) (path : String) : Except FtvFileError Bool :=
  match cfbOpen fs path with
  | Except.error k => Except.error (FtvFileError.IoError k)
  | Except.ok file =>
    match file.openStream "/FILE_PROTECTION" with
    | Except.error k => Except.error (FtvFileError.IoError k)
    | Except.ok prot =>
      if prot.length = 7 then
        Except.ok (decide (prot = [0x00, 0x03, 0x00, 0x01, 0x00, 0x00, 0x00]))
      else
        Except.ok (decide (prot.length > 7))

/-- The 7-byte pattern `strip_protection` writes into `/FILE_PROTECTION`. -/
def unlockedBytes : Bytes := [0x00, 0x03, 0x00, 0x00, 0x00, 0x00, 0x00]

/-- The 3-byte pattern `strip_protection` writes into
`/VERSION_INFORMATION` on the old-format path (decodes as version 5.10). -/
def newVersionBytes : Bytes := [0x03, 0x05, 0x0A]

/-- Mirrors `strip_protection` in src/lib.rs: open read-write, decode the
version by re-reading the path; when `major_rev < 5` create
`/FILE_PROTECTION` (fails if it exists), size it to 7, write
`unlockedBytes`, and rewrite `/VERSION_INFORMATION` to `newVersionBytes`;
otherwise open the existing `/FILE_PROTECTION`, size it to 7 and write
`unlockedBytes`. -/
def strip_protection (fs : FileSystem) (path : String) :
    Except FtvFileError FileSystem :=
  match cfbOpenRw fs path with
  | Except.error k => Except.error (FtvFileError.IoError k)
  | Except.ok file =>
    match get_version fs path with
    | Except.error e => Except.error e
    | Except.ok version =>
      if version.major_rev < 5 then
        match file.createNewStream "/FILE_PROTECTION" with
        | Except.error k => Except.error (FtvFileError.IoError k)
        | Except.ok file2 =>
          let file3 := file2.setStream "/FILE_PROTECTION"
            (writeAt0 unlockedBytes (setLenBytes 7 []))
          match file3.openStream "/VERSION_INFORMATION" with
          | Except.error k => Except.error (FtvFileError.IoError k)
          | Except.ok ver_data =>
            Except.ok (setFile fs path
              (file3.setStream "/VERSION_INFORMATION"
                (writeAt0 newVersionBytes ver_data)))
      else
        match file.openStream "/FILE_PROTECTION" with
        | Except.error k => Except.error (FtvFileError.IoError k)
        | Except.ok prot_data =>
          Except.ok (setFile fs path
            (file.setStream "/FILE_PROTECTION"
              (writeAt0 unlockedBytes (setLenBytes 7 prot_data))))

/-- Mirrors `get_versions`: map `get_version` over the paths, one result
per path, in order (the parallel fan-out does not change semantics). -/
def get_versions (fs : FileSystem) (files : List String) :
    List (Except FtvFileError FileVersion) :=
  files.map (fun file => get_version fs file)

/-- Mirrors `are_protected`: map `is_protected` over the paths, one result
per path, in order. -/
def are_protected (fs : FileSystem) (files : List String) :
    List (Except FtvFileError Bool) :=
  files.map (fun file => is_protected fs file)

/-- Mirrors `strip_protections`: its `collect::<Result<(), _>>()` collapses
the per-path results into a single `Result`, stopping at the first error;
successful strips mutate their files. -/
def strip_protections (fs : FileSystem) : List String → Except FtvFileError FileSystem
  | [] => Except.ok fs
  | file :: rest =>
    match strip_protection fs file with
    | Except.error e => Except.error e
    | Except.ok fs2 => strip_protections fs2 rest

/-! Sample containers and filesystems for concrete evaluations. -/

/-- A version-7.3 container whose 12-byte protection stream marks it
password-protected. -/
def sampleGood : Container :=
  ⟨[("/VERSION_INFORMATION", [0x00, 0x07, 0x03]),
    ("/FILE_PROTECTION", [1, 2, 3, 4, 5, 6, 7, 8, 9, 10, 11, 12])]⟩

/-- A container with a protection stream but no version stream. -/
def sampleNoVersion : Container :=
  ⟨[("/FILE_PROTECTION", [0, 0, 0, 0, 0, 0, 0, 0])]⟩

/-- A version-3.2 old-format container with no protection stream. -/
def sampleOld : Container :=
  ⟨[("/VERSION_INFORMATION", [0x00, 0x03, 0x02])]⟩

/-- A version-4.0 container that already has a protection stream. -/
def sampleOldLocked : Container :=
  ⟨[("/VERSION_INFORMATION", [0x00, 0x04, 0x00]),
    ("/FILE_PROTECTION", [0x00, 0x03, 0x00, 0x00, 0x00, 0x00, 0x00])]⟩

/-- A version-12.0 container carrying the never-convert protection bytes. -/
def sampleNever : Container :=
  ⟨[("/VERSION_INFORMATION", [0x00, 0x0C, 0x00]),
    ("/FILE_PROTECTION", [0x00, 0x03, 0x00, 0x01, 0x00, 0x00, 0x00])]⟩

/-- A filesystem combining the sample containers. -/
def sampleFs : FileSystem :=
  [("bad.mer", sampleNoVersion), ("good.mer", sampleGood), ("old.mer", sampleOld),
   ("oldfp.mer", sampleOldLocked), ("never.mer", sampleNever)]

/-- `sampleFs` after a successful strip of `good.mer`. -/
def sampleFsStripped : FileSystem :=
  [("bad.mer", sampleNoVersion),
   ("good.mer", ⟨[("/VERSION_INFORMATION", [0x00, 0x07, 0x03]),
     ("/FILE_PROTECTION", [0x00, 0x03, 0x00, 0x00, 0x00, 0x00, 0x00])]⟩),
   ("old.mer", sampleOld), ("oldfp.mer", sampleOldLocked), ("never.mer", sampleNever)]

/-! Lemmas about association-list lookup and update. -/

theorem findAssoc_updAssoc_same {α : Type} (l : List (String × α)) (k : String) (v : α)
    (h : (findAssoc l k).isSome = true) :
    findAssoc (updAssoc l k v) k = some v := by
  induction l with
  | nil => simp [findAssoc] at h
  | cons p rest ih =>
    by_cases hpk : p.1 = k
    · simp [findAssoc, updAssoc, hpk]
    · simp [findAssoc, updAssoc, hpk] at h ⊢
      exact ih h

theorem findAssoc_updAssoc_other {α : Type} (l : List (String × α)) (k k' : String)
    (v : α) (h : k' ≠ k) :
    findAssoc (updAssoc l k v) k' = findAssoc l k' := by
  induction l with
  | nil => rfl
  | cons p rest ih =>
    by_cases hpk : p.1 = k
    · have hk : ¬ k = k' := fun he => h he.symm
      have hp : ¬ p.1 = k' := by rw [hpk]; exact hk
      simp [findAssoc, updAssoc, hpk, hk, hp, ih]
    · by_cases hpk' : p.1 = k'
      · simp [findAssoc, updAssoc, hpk, hpk', h]
      · simp [findAssoc, updAssoc, hpk, hpk', ih]

theorem findAssoc_append_same {α : Type} (l : List (String × α)) (k : String) (v : α)
    (h : findAssoc l k = none) :
    findAssoc (l ++ [(k, v)]) k = some v := by
  induction l with
  | nil => simp [findAssoc]
  | cons p rest ih =>
    by_cases hpk : p.1 = k
    · simp [findAssoc, hpk] at h
    · simp [findAssoc, hpk] at h ⊢
      exact ih h

theorem findAssoc_append_other {α : Type} (l : List (String × α)) (k k' : String)
    (v : α) (h : k' ≠ k) :
    findAssoc (l ++ [(k, v)]) k' = findAssoc l k' := by
  induction l with
  | nil =>
    have hk : ¬ k = k' := fun he => h he.symm
    simp [findAssoc, hk]
  | cons p rest ih =>
    by_cases hpk : p.1 = k'
    · simp [findAssoc, hpk]
    · simp [findAssoc, hpk, ih]

/-! Lemmas about the byte-sequence operations. -/

theorem setLenBytes_length (n : Nat) (b : Bytes) : (setLenBytes n b).length = n := by
  simp [setLenBytes]
  omega

theorem writeAt0_of_length_le (data b : Bytes) (h : b.length ≤ data.length) :
    writeAt0 data b = data := by
  simp [writeAt0, List.drop_eq_nil_of_le h]

theorem writeAt0_setLenBytes (data : Bytes) (b : Bytes)
    (h : data.length = 7) :
    writeAt0 data (setLenBytes 7 b) = data := by
  apply writeAt0_of_length_le
  rw [setLenBytes_length, h]

/-! Lemmas about container and filesystem access. -/

theorem cfbOpen_ok_iff (fs : FileSystem) (path : String) (c : Container) :
    cfbOpen fs path = Except.ok c ↔ findAssoc fs path = some c := by
  unfold cfbOpen
  cases h : findAssoc fs path <;> simp

theorem cfbOpen_setFile_same (fs : FileSystem) (path : String) (c c' : Container)
    (h : cfbOpen fs path = Except.ok c) :
    cfbOpen (setFile fs path c') path = Except.ok c' := by
  rw [cfbOpen_ok_iff] at h ⊢
  exact findAssoc_updAssoc_same fs path c' (by rw [h]; rfl)

theorem getStream_setStream_same (c : Container) (name : String) (b b0 : Bytes)
    (h : c.getStream name = some b0) :
    (c.setStream name b).getStream name = some b := by
  unfold Container.getStream at h
  exact findAssoc_updAssoc_same c.streams name b (by rw [h]; rfl)

theorem getStream_setStream_other (c : Container) (name name' : String) (b : Bytes)
    (h : name' ≠ name) :
    (c.setStream name b).getStream name' = c.getStream name' :=
  findAssoc_updAssoc_other c.streams name name' b h

/-! Characterizations of the version reader. -/

theorem get_version_of_stream (fs : FileSystem) (path : String) (c : Container)
    (vd : Bytes) (hopen : cfbOpen fs path = Except.ok c)
    (hvd : c.getStream "/VERSION_INFORMATION" = some vd) (hlen : vd.length = 3) :
    get_version fs path = Except.ok ⟨vd.getD 1 0, vd.getD 2 0⟩ := by
  simp [get_version, hopen, Container.openStream, hvd, hlen]

theorem get_version_of_badlen (fs : FileSystem) (path : String) (c : Container)
    (vd : Bytes) (hopen : cfbOpen fs path = Except.ok c)
    (hvd : c.getStream "/VERSION_INFORMATION" = some vd) (hlen : vd.length ≠ 3) :
    get_version fs path =
      Except.error (FtvFileError.FileTypeError FTypeError.InvalidVersion) := by
  simp [get_version, hopen, Container.openStream, hvd, hlen]

theorem get_version_of_none (fs : FileSystem) (path : String) (c : Container)
    (hopen : cfbOpen fs path = Except.ok c)
    (hvd : c.getStream "/VERSION_INFORMATION" = none) :
    get_version fs path =
      Except.error (FtvFileError.FileTypeError FTypeError.NoVersion) := by
  simp [get_version, hopen, Container.openStream, hvd]

theorem get_version_ok_inv (fs : FileSystem) (path : String) (c : Container)
    (v : FileVersion) (hopen : cfbOpen fs path = Except.ok c)
    (h : get_version fs path = Except.ok v) :
    ∃ vd, c.getStream "/VERSION_INFORMATION" = some vd ∧ vd.length = 3 ∧
      v = ⟨vd.getD 1 0, vd.getD 2 0⟩ := by
  cases hvd : c.getStream "/VERSION_INFORMATION" with
  | none =>
    rw [get_version_of_none fs path c hopen hvd] at h
    exact absurd h (by simp)
  | some vd =>
    by_cases hlen : vd.length = 3
    · refine ⟨vd, rfl, hlen, ?_⟩
      rw [get_version_of_stream fs path c vd hopen hvd hlen] at h
      injection h with h2
      exact h2.symm
    · rw [get_version_of_badlen fs path c vd hopen hvd hlen] at h
      exact absurd h (by simp)

/-! Characterizations of the protection reader. -/

theorem is_protected_of_stream (fs : FileSystem) (path : String) (c : Container)
    (b : Bytes) (hopen : cfbOpen fs path = Except.ok c)
    (hb : c.getStream "/FILE_PROTECTION" = some b) :
    is_protected fs path = Except.ok
      (if b.length = 7 then decide (b = [0x00, 0x03, 0x00, 0x01, 0x00, 0x00, 0x00])
       else decide (b.length > 7)) := by
  by_cases hlen : b.length = 7 <;>
    simp [is_protected, hopen, Container.openStream, hb, hlen]

theorem is_protected_of_none (fs : FileSystem) (path : String) (c : Container)
    (hopen : cfbOpen fs path = Except.ok c)
    (hb : c.getStream "/FILE_PROTECTION" = none) :
    is_protected fs path = Except.error (FtvFileError.IoError IoErrorKind.NotFound) := by
  simp [is_protected, hopen, Container.openStream, hb]

theorem is_protected_of_unlockedBytes (fs : FileSystem) (path : String) (c : Container)
    (hopen : cfbOpen fs path = Except.ok c)
    (hb : c.getStream "/FILE_PROTECTION" = some unlockedBytes) :
    is_protected fs path = Except.ok false := by
  rw [is_protected_of_stream fs path c unlockedBytes hopen hb]
  rfl

/-! Characterizations of the protection stripper. -/

theorem strip_open_error (fs : FileSystem) (path : String) (k : IoErrorKind)
    (hopen : cfbOpen fs path = Except.error k) :
    strip_protection fs path = Except.error (FtvFileError.IoError k) := by
  have hopen' : cfbOpenRw fs path = Except.error k := hopen
  simp [strip_protection, hopen']

theorem strip_ver_error (fs : FileSystem) (path : String) (c : Container)
    (e : FtvFileError) (hopen : cfbOpen fs path = Except.ok c)
    (hver : get_version fs path = Except.error e) :
    strip_protection fs path = Except.error e := by
  have hopen' : cfbOpenRw fs path = Except.ok c := hopen
  simp [strip_protection, hopen', hver]

theorem strip_old_already_exists (fs : FileSystem) (path : String) (c : Container)
    (vd pb : Bytes) (hopen : cfbOpen fs path = Except.ok c)
    (hvd : c.getStream "/VERSION_INFORMATION" = some vd) (hlen : vd.length = 3)
    (hmaj : vd.getD 1 0 < 5) (hfp : c.getStream "/FILE_PROTECTION" = some pb) :
    strip_protection fs path =
      Except.error (FtvFileError.IoError IoErrorKind.AlreadyExists) := by
  have hopen' : cfbOpenRw fs path = Except.ok c := hopen
  have hver := get_version_of_stream fs path c vd hopen hvd hlen
  have hcreate : c.createNewStream "/FILE_PROTECTION" =
      Except.error IoErrorKind.AlreadyExists := by
    unfold Container.createNewStream
    rw [hfp]
  have hmaj' : (vd[1]?).getD 0 < 5 := by simpa using hmaj
  simp [strip_protection, hopen', hver, hmaj', hcreate]

theorem strip_new_no_fp (fs : FileSystem) (path : String) (c : Container)
    (vd : Bytes) (hopen : cfbOpen fs path = Except.ok c)
    (hvd : c.getStream "/VERSION_INFORMATION" = some vd) (hlen : vd.length = 3)
    (hmaj : ¬ vd.getD 1 0 < 5) (hfp : c.getStream "/FILE_PROTECTION" = none) :
    strip_protection fs path =
      Except.error (FtvFileError.IoError IoErrorKind.NotFound) := by
  have hopen' : cfbOpenRw fs path = Except.ok c := hopen
  have hver := get_version_of_stream fs path c vd hopen hvd hlen
  have ho : c.openStream "/FILE_PROTECTION" = Except.error IoErrorKind.NotFound := by
    unfold Container.openStream
    rw [hfp]
  have hmaj' : ¬ (vd[1]?).getD 0 < 5 := by simpa using hmaj
  simp [strip_protection, hopen', hver, hmaj', ho]

theorem strip_old_result (fs : FileSystem) (path : String) (c : Container) (vd : Bytes)
    (hopen : cfbOpen fs path = Except.ok c)
    (hvd : c.getStream "/VERSION_INFORMATION" = some vd)
    (hlen : vd.length = 3) (hmaj : vd.getD 1 0 < 5)
    (hfp : c.getStream "/FILE_PROTECTION" = none) :
    ∃ c', strip_protection fs path = Except.ok (setFile fs path c') ∧
      c'.getStream "/FILE_PROTECTION" = some unlockedBytes ∧
      c'.getStream "/VERSION_INFORMATION" = some newVersionBytes ∧
      ∀ name, name ≠ "/FILE_PROTECTION" → name ≠ "/VERSION_INFORMATION" →
        c'.getStream name = c.getStream name := by
  have hopen' : cfbOpenRw fs path = Except.ok c := hopen
  have hver := get_version_of_stream fs path c vd hopen hvd hlen
  have hcreate : c.createNewStream "/FILE_PROTECTION" =
      Except.ok ⟨c.streams ++ [("/FILE_PROTECTION", [])]⟩ := by
    unfold Container.createNewStream
    rw [hfp]
  have hw : writeAt0 unlockedBytes (setLenBytes 7 []) = unlockedBytes := by decide
  have hfile2fp : (Container.mk (c.streams ++ [("/FILE_PROTECTION", [])])).getStream
      "/FILE_PROTECTION" = some [] :=
    findAssoc_append_same c.streams "/FILE_PROTECTION" [] hfp
  have hfile2vi : (Container.mk (c.streams ++ [("/FILE_PROTECTION", [])])).getStream
      "/VERSION_INFORMATION" = some vd := by
    have := findAssoc_append_other c.streams "/FILE_PROTECTION" "/VERSION_INFORMATION"
      [] (by decide)
    exact this.trans hvd
  have hfile3vi : ((Container.mk (c.streams ++ [("/FILE_PROTECTION", [])])).setStream
      "/FILE_PROTECTION" unlockedBytes).getStream "/VERSION_INFORMATION" = some vd := by
    rw [getStream_setStream_other _ _ _ _ (by decide)]
    exact hfile2vi
  have hopen3 : ((Container.mk (c.streams ++ [("/FILE_PROTECTION", [])])).setStream
      "/FILE_PROTECTION" unlockedBytes).openStream "/VERSION_INFORMATION" =
      Except.ok vd := by
    unfold Container.openStream
    rw [hfile3vi]
  have hw2 : writeAt0 newVersionBytes vd = newVersionBytes :=
    writeAt0_of_length_le newVersionBytes vd (by rw [hlen]; decide)
  refine ⟨((Container.mk (c.streams ++ [("/FILE_PROTECTION", [])])).setStream
      "/FILE_PROTECTION" unlockedBytes).setStream "/VERSION_INFORMATION" newVersionBytes,
      ?_, ?_, ?_, ?_⟩
  · have hmaj' : (vd[1]?).getD 0 < 5 := by simpa using hmaj
    simp [strip_protection, hopen', hver, hmaj', hcreate, hw, hopen3, hw2]
  · rw [getStream_setStream_other _ _ _ _ (by decide)]
    exact getStream_setStream_same _ _ unlockedBytes [] hfile2fp
  · exact getStream_setStream_same _ _ newVersionBytes vd hfile3vi
  · intro name hnfp hnvi
    rw [getStream_setStream_other _ _ _ _ hnvi,
      getStream_setStream_other _ _ _ _ hnfp]
    exact findAssoc_append_other c.streams "/FILE_PROTECTION" name [] hnfp

theorem strip_new_result (fs : FileSystem) (path : String) (c : Container)
    (vd pb : Bytes) (hopen : cfbOpen fs path = Except.ok c)
    (hvd : c.getStream "/VERSION_INFORMATION" = some vd) (hlen : vd.length = 3)
    (hmaj : ¬ vd.getD 1 0 < 5) (hfp : c.getStream "/FILE_PROTECTION" = some pb) :
    ∃ c', strip_protection fs path = Except.ok (setFile fs path c') ∧
      c'.getStream "/FILE_PROTECTION" = some unlockedBytes ∧
      ∀ name, name ≠ "/FILE_PROTECTION" → c'.getStream name = c.getStream name := by
  have hopen' : cfbOpenRw fs path = Except.ok c := hopen
  have hver := get_version_of_stream fs path c vd hopen hvd hlen
  have ho : c.openStream "/FILE_PROTECTION" = Except.ok pb := by
    unfold Container.openStream
    rw [hfp]
  have hw : writeAt0 unlockedBytes (setLenBytes 7 pb) = unlockedBytes :=
    writeAt0_setLenBytes unlockedBytes pb rfl
  refine ⟨c.setStream "/FILE_PROTECTION" unlockedBytes, ?_, ?_, ?_⟩
  · have hmaj' : ¬ (vd[1]?).getD 0 < 5 := by simpa using hmaj
    simp [strip_protection, hopen', hver, hmaj', ho, hw]
  · exact getStream_setStream_same c _ unlockedBytes pb hfp
  · intro name hn
    exact getStream_setStream_other c _ name unlockedBytes hn

theorem strip_ok_inv (fs : FileSystem) (path : String) (fs1 : FileSystem)
    (h : strip_protection fs path = Except.ok fs1) :
    ∃ c vd, cfbOpen fs path = Except.ok c ∧
      c.getStream "/VERSION_INFORMATION" = some vd ∧ vd.length = 3 ∧
      ((vd.getD 1 0 < 5 ∧ c.getStream "/FILE_PROTECTION" = none) ∨
       (¬ vd.getD 1 0 < 5 ∧ ∃ pb, c.getStream "/FILE_PROTECTION" = some pb)) := by
  cases hopen : cfbOpen fs path with
  | error k =>
    rw [strip_open_error fs path k hopen] at h
    exact absurd h (by simp)
  | ok c =>
    cases hvd : c.getStream "/VERSION_INFORMATION" with
    | none =>
      rw [strip_ver_error fs path c _ hopen (get_version_of_none fs path c hopen hvd)] at h
      exact absurd h (by simp)
    | some vd =>
      by_cases hlen : vd.length = 3
      · by_cases hmaj : vd.getD 1 0 < 5
        · cases hfp : c.getStream "/FILE_PROTECTION" with
          | none => exact ⟨c, vd, rfl, hvd, hlen, Or.inl ⟨hmaj, hfp⟩⟩
          | some pb =>
            rw [strip_old_already_exists fs path c vd pb hopen hvd hlen hmaj hfp] at h
            exact absurd h (by simp)
        · cases hfp : c.getStream "/FILE_PROTECTION" with
          | none =>
            rw [strip_new_no_fp fs path c vd hopen hvd hlen hmaj hfp] at h
            exact absurd h (by simp)
          | some pb => exact ⟨c, vd, rfl, hvd, hlen, Or.inr ⟨hmaj, pb, hfp⟩⟩
      · rw [strip_ver_error fs path c _ hopen
          (get_version_of_badlen fs path c vd hopen hvd hlen)] at h
        exact absurd h (by simp)

/-! Claim theorems. -/

/-- C9: for every byte value of `major_rev` from 0 to 255 (and any byte
`minor_rev`), `FileVersion.is_old` is true iff `major_rev < 5` and
`FileVersion.is_restorable` is true iff `major_rev ≥ 4`. -/
theorem C9_version_predicates : ∀ M m : Fin 256,
    ((FileVersion.mk M.val m.val).is_old = true ↔ M.val < 5) ∧
    ((FileVersion.mk M.val m.val).is_restorable = true ↔ 4 ≤ M.val) := by
  intro M m
  constructor <;> simp [FileVersion.is_old, FileVersion.is_restorable]

/-- C4: `get_version` returns `major_rev = bytes[1]`, `minor_rev = bytes[2]`
for every 3-byte version stream regardless of byte 0; fails with
`InvalidVersion` for every other stream length; fails with `NoVersion`
when `/VERSION_INFORMATION` is absent. -/
theorem C4_get_version (fs : FileSystem) (path : String) (c : Container)
    (hopen : cfbOpen fs path = Except.ok c) :
    (∀ vd, c.getStream "/VERSION_INFORMATION" = some vd → vd.length = 3 →
      get_version fs path = Except.ok ⟨vd.getD 1 0, vd.getD 2 0⟩) ∧
    (∀ vd, c.getStream "/VERSION_INFORMATION" = some vd → vd.length ≠ 3 →
      get_version fs path =
        Except.error (FtvFileError.FileTypeError FTypeError.InvalidVersion)) ∧
    (c.getStream "/VERSION_INFORMATION" = none →
      get_version fs path =
        Except.error (FtvFileError.FileTypeError FTypeError.NoVersion)) :=
  ⟨fun vd hvd hlen => get_version_of_stream fs path c vd hopen hvd hlen,
   fun vd hvd hlen => get_version_of_badlen fs path c vd hopen hvd hlen,
   fun hvd => get_version_of_none fs path c hopen hvd⟩

/-- Witness for C4: on `good.mer` (version stream `[0x00, 0x07, 0x03]`)
the decoded version is 7.3. -/
theorem C4_get_version_witness :
    cfbOpen sampleFs "good.mer" = Except.ok sampleGood ∧
    get_version sampleFs "good.mer" = Except.ok ⟨7, 3⟩ :=
  ⟨by rfl,
   (C4_get_version sampleFs "good.mer" sampleGood (by rfl)).1
     [0x00, 0x07, 0x03] (by rfl) (by decide)⟩

/-- C5: for a protection stream whose length is not 7, `is_protected`
decides from the length alone: `protected` when longer than 7,
`unprotected` when shorter than 7. -/
theorem C5_protection_length (fs : FileSystem) (path : String) (c : Container)
    (b : Bytes) (hopen : cfbOpen fs path = Except.ok c)
    (hb : c.getStream "/FILE_PROTECTION" = some b) (hlen : b.length ≠ 7) :
    is_protected fs path = Except.ok (decide (b.length > 7)) ∧
    (b.length > 7 → is_protected fs path = Except.ok true) ∧
    (b.length < 7 → is_protected fs path = Except.ok false) := by
  have h := is_protected_of_stream fs path c b hopen hb
  rw [if_neg hlen] at h
  refine ⟨h, ?_, ?_⟩
  · intro hgt
    rw [h]
    simp [hgt]
  · intro hlt
    rw [h]
    simp
    omega

/-- Witness for C5: the 8-byte protection stream of `bad.mer` reads as
protected. -/
theorem C5_protection_length_witness :
    ((8 : Nat) ≠ 7 ∧ (8 : Nat) > 7) ∧
    is_protected sampleFs "bad.mer" = Except.ok true :=
  ⟨⟨by decide, by decide⟩,
   (C5_protection_length sampleFs "bad.mer" sampleNoVersion
     [0, 0, 0, 0, 0, 0, 0, 0] (by rfl) (by rfl) (by decide)).2.1 (by decide)⟩

/-- C1 as stated is false: on a 7-byte protection stream equal to
`[0x00, 0x03, 0x00, 0x01, 0x00, 0x00, 0x00]` the verdict is protected
(`true`), not unprotected, and on a different 7-byte content the verdict
is unprotected (`false`), not protected. -/
theorem C1_counterexample :
    is_protected [("n.mer", Container.mk
        [("/FILE_PROTECTION", [0x00, 0x03, 0x00, 0x01, 0x00, 0x00, 0x00])])] "n.mer"
      = Except.ok true ∧
    is_protected [("u.mer", Container.mk
        [("/FILE_PROTECTION", [0x00, 0x03, 0x00, 0x00, 0x00, 0x00, 0x00])])] "u.mer"
      = Except.ok false :=
  ⟨by rfl, by rfl⟩

/-- C1 amended: for every 7-byte protection stream, `is_protected` returns
protected exactly when the bytes equal
`[0x00, 0x03, 0x00, 0x01, 0x00, 0x00, 0x00]` (the never-convert pattern),
and unprotected for every other 7-byte content. -/
theorem C1_seven_byte_verdict (fs : FileSystem) (path : String) (c : Container)
    (b : Bytes) (hopen : cfbOpen fs path = Except.ok c)
    (hb : c.getStream "/FILE_PROTECTION" = some b) (hlen : b.length = 7) :
    is_protected fs path =
      Except.ok (decide (b = [0x00, 0x03, 0x00, 0x01, 0x00, 0x00, 0x00])) := by
  have h := is_protected_of_stream fs path c b hopen hb
  rw [if_pos hlen] at h
  exact h

/-- Witness for C1's amended claim: `never.mer` carries the never-convert
bytes and reads as protected. -/
theorem C1_seven_byte_verdict_witness :
    ([0x00, 0x03, 0x00, 0x01, 0x00, 0x00, 0x00] : Bytes).length = 7 ∧
    is_protected sampleFs "never.mer" = Except.ok true :=
  ⟨by decide,
   (C1_seven_byte_verdict sampleFs "never.mer" sampleNever
     [0x00, 0x03, 0x00, 0x01, 0x00, 0x00, 0x00] (by rfl) (by rfl) (by decide))⟩

/-- C8: when `/FILE_PROTECTION` is absent, `is_protected` fails with the
generic I/O error wrapping the underlying `NotFound` failure; absence is
never a `FileTypeError` and never an `ok` verdict. -/
theorem C8_missing_protection_stream (fs : FileSystem) (path : String)
    (c : Container) (hopen : cfbOpen fs path = Except.ok c)
    (hfp : c.getStream "/FILE_PROTECTION" = none) :
    is_protected fs path = Except.error (FtvFileError.IoError IoErrorKind.NotFound) ∧
    (∀ e, is_protected fs path ≠ Except.error (FtvFileError.FileTypeError e)) ∧
    ∀ b, is_protected fs path ≠ Except.ok b := by
  have h := is_protected_of_none fs path c hopen hfp
  refine ⟨h, ?_, ?_⟩
  · intro e hx
    rw [h] at hx
    exact absurd hx (by simp)
  · intro b hx
    rw [h] at hx
    exact absurd hx (by simp)

/-- Witness for C8: `old.mer` has no protection stream, so `is_protected`
fails with the wrapped `NotFound` I/O error. -/
theorem C8_missing_protection_stream_witness :
    sampleOld.getStream "/FILE_PROTECTION" = none ∧
    is_protected sampleFs "old.mer" =
      Except.error (FtvFileError.IoError IoErrorKind.NotFound) :=
  ⟨by rfl,
   (C8_missing_protection_stream sampleFs "old.mer" sampleOld
     (by rfl) (by rfl)).1⟩

/-- C3: on a container whose decoded `major_rev` is below 5 and which has
no `/FILE_PROTECTION` stream, `strip_protection` succeeds; afterwards
`/FILE_PROTECTION` holds exactly `[0x00, 0x03, 0x00, 0x00, 0x00, 0x00, 0x00]`,
`/VERSION_INFORMATION` holds exactly `[0x03, 0x05, 0x0A]`, `get_version`
returns 5.10 and `is_protected` returns unprotected. -/
theorem C3_strip_old_format (fs : FileSystem) (path : String) (c : Container)
    (v : FileVersion) (hopen : cfbOpen fs path = Except.ok c)
    (hver : get_version fs path = Except.ok v) (hmaj : v.major_rev < 5)
    (hfp : c.getStream "/FILE_PROTECTION" = none) :
    ∃ fs' c', strip_protection fs path = Except.ok fs' ∧
      cfbOpen fs' path = Except.ok c' ∧
      c'.getStream "/FILE_PROTECTION" =
        some [0x00, 0x03, 0x00, 0x00, 0x00, 0x00, 0x00] ∧
      c'.getStream "/VERSION_INFORMATION" = some [0x03, 0x05, 0x0A] ∧
      get_version fs' path = Except.ok ⟨5, 10⟩ ∧
      is_protected fs' path = Except.ok false := by
  obtain ⟨vd, hvd, hlen, hv⟩ := get_version_ok_inv fs path c v hopen hver
  have hmaj' : vd.getD 1 0 < 5 := by
    rw [hv] at hmaj
    exact hmaj
  obtain ⟨c', hstrip, hcfp, hcvi, _⟩ :=
    strip_old_result fs path c vd hopen hvd hlen hmaj' hfp
  have hopen' := cfbOpen_setFile_same fs path c c' hopen
  refine ⟨setFile fs path c', c', hstrip, hopen', hcfp, hcvi, ?_, ?_⟩
  · exact get_version_of_stream (setFile fs path c') path c' newVersionBytes
      hopen' hcvi (by decide)
  · exact is_protected_of_unlockedBytes (setFile fs path c') path c' hopen' hcfp

/-- Witness for C3: stripping the version-3.2 container `old.mer` creates
the protection stream, rewrites the version to 5.10 and reads back
unprotected. -/
theorem C3_strip_old_format_witness :
    (get_version sampleFs "old.mer" = Except.ok ⟨3, 2⟩ ∧
      sampleOld.getStream "/FILE_PROTECTION" = none) ∧
    (∃ fs' c', strip_protection sampleFs "old.mer" = Except.ok fs' ∧
      cfbOpen fs' "old.mer" = Except.ok c' ∧
      c'.getStream "/FILE_PROTECTION" =
        some [0x00, 0x03, 0x00, 0x00, 0x00, 0x00, 0x00] ∧
      c'.getStream "/VERSION_INFORMATION" = some [0x03, 0x05, 0x0A] ∧
      get_version fs' "old.mer" = Except.ok ⟨5, 10⟩ ∧
      is_protected fs' "old.mer" = Except.ok false) :=
  ⟨⟨by rfl, by rfl⟩,
   C3_strip_old_format sampleFs "old.mer" sampleOld ⟨3, 2⟩
     (by rfl) (by rfl) (by decide) (by rfl)⟩

/-- C7: on a container whose decoded `major_rev` is at least 5 and which
has a `/FILE_PROTECTION` stream, `strip_protection` forces that stream to
exactly `[0x00, 0x03, 0x00, 0x00, 0x00, 0x00, 0x00]`, leaves every other
stream (including `/VERSION_INFORMATION`) unchanged, and `get_version`
afterwards returns the same version as before. -/
theorem C7_strip_new_format (fs : FileSystem) (path : String) (c : Container)
    (v : FileVersion) (pb : Bytes) (hopen : cfbOpen fs path = Except.ok c)
    (hver : get_version fs path = Except.ok v) (hmaj : 5 ≤ v.major_rev)
    (hfp : c.getStream "/FILE_PROTECTION" = some pb) :
    ∃ fs' c', strip_protection fs path = Except.ok fs' ∧
      cfbOpen fs' path = Except.ok c' ∧
      c'.getStream "/FILE_PROTECTION" =
        some [0x00, 0x03, 0x00, 0x00, 0x00, 0x00, 0x00] ∧
      (∀ name, name ≠ "/FILE_PROTECTION" →
        c'.getStream name = c.getStream name) ∧
      get_version fs' path = Except.ok v := by
  obtain ⟨vd, hvd, hlen, hv⟩ := get_version_ok_inv fs path c v hopen hver
  have hmaj' : ¬ vd.getD 1 0 < 5 := by
    rw [hv] at hmaj
    have h5 : 5 ≤ vd.getD 1 0 := hmaj
    omega
  obtain ⟨c', hstrip, hcfp, hother⟩ :=
    strip_new_result fs path c vd pb hopen hvd hlen hmaj' hfp
  have hopen' := cfbOpen_setFile_same fs path c c' hopen
  refine ⟨setFile fs path c', c', hstrip, hopen', hcfp, hother, ?_⟩
  have hvi' : c'.getStream "/VERSION_INFORMATION" = some vd := by
    rw [hother "/VERSION_INFORMATION" (by decide)]
    exact hvd
  rw [get_version_of_stream (setFile fs path c') path c' vd hopen' hvi' hlen, hv]

/-- Witness for C7: stripping the version-7.3, 12-byte-protected
`good.mer` rewrites the protection stream, keeps the version stream, and
still decodes 7.3. -/
theorem C7_strip_new_format_witness :
    (get_version sampleFs "good.mer" = Except.ok ⟨7, 3⟩ ∧
      sampleGood.getStream "/FILE_PROTECTION" =
        some [1, 2, 3, 4, 5, 6, 7, 8, 9, 10, 11, 12]) ∧
    (∃ fs' c', strip_protection sampleFs "good.mer" = Except.ok fs' ∧
      cfbOpen fs' "good.mer" = Except.ok c' ∧
      c'.getStream "/FILE_PROTECTION" =
        some [0x00, 0x03, 0x00, 0x00, 0x00, 0x00, 0x00] ∧
      (∀ name, name ≠ "/FILE_PROTECTION" →
        c'.getStream name = sampleGood.getStream name) ∧
      get_version fs' "good.mer" = Except.ok ⟨7, 3⟩) :=
  ⟨⟨by rfl, by rfl⟩,
   C7_strip_new_format sampleFs "good.mer" sampleGood ⟨7, 3⟩
     [1, 2, 3, 4, 5, 6, 7, 8, 9, 10, 11, 12] (by rfl) (by rfl) (by decide) (by rfl)⟩

/-- C6: `strip_protection` is idempotent: whenever a first call succeeds,
`is_protected` reads unprotected on the result, a second call succeeds
with no error, and `is_protected` still reads unprotected. -/
theorem C6_strip_idempotent (fs : FileSystem) (path : String) (fs1 : FileSystem)
    (h : strip_protection fs path = Except.ok fs1) :
    is_protected fs1 path = Except.ok false ∧
    ∃ fs2, strip_protection fs1 path = Except.ok fs2 ∧
      is_protected fs2 path = Except.ok false := by
  obtain ⟨c, vd, hopen, hvd, hlen, hcase⟩ := strip_ok_inv fs path fs1 h
  cases hcase with
  | inl hold =>
    obtain ⟨hmaj, hfp⟩ := hold
    obtain ⟨c', hstrip, hcfp, hcvi, _⟩ :=
      strip_old_result fs path c vd hopen hvd hlen hmaj hfp
    rw [h] at hstrip
    injection hstrip with hfs1
    subst hfs1
    have hopen1 := cfbOpen_setFile_same fs path c c' hopen
    refine ⟨is_protected_of_unlockedBytes _ path c' hopen1 hcfp, ?_⟩
    obtain ⟨c'', hstrip2, hcfp2, _⟩ :=
      strip_new_result (setFile fs path c') path c' newVersionBytes unlockedBytes
        hopen1 hcvi (by decide) (by decide) hcfp
    exact ⟨setFile (setFile fs path c') path c'', hstrip2,
      is_protected_of_unlockedBytes _ path c''
        (cfbOpen_setFile_same _ path c' c'' hopen1) hcfp2⟩
  | inr hnew =>
    obtain ⟨hmaj, pb, hfp⟩ := hnew
    obtain ⟨c', hstrip, hcfp, hother⟩ :=
      strip_new_result fs path c vd pb hopen hvd hlen hmaj hfp
    rw [h] at hstrip
    injection hstrip with hfs1
    subst hfs1
    have hopen1 := cfbOpen_setFile_same fs path c c' hopen
    have hvi1 : c'.getStream "/VERSION_INFORMATION" = some vd := by
      rw [hother "/VERSION_INFORMATION" (by decide)]
      exact hvd
    refine ⟨is_protected_of_unlockedBytes _ path c' hopen1 hcfp, ?_⟩
    obtain ⟨c'', hstrip2, hcfp2, _⟩ :=
      strip_new_result (setFile fs path c') path c' vd unlockedBytes
        hopen1 hvi1 hlen hmaj hcfp
    exact ⟨setFile (setFile fs path c') path c'', hstrip2,
      is_protected_of_unlockedBytes _ path c''
        (cfbOpen_setFile_same _ path c' c'' hopen1) hcfp2⟩

/-- Witness for C6: after stripping `good.mer` once, the file reads
unprotected, a second strip succeeds, and it still reads unprotected. -/
theorem C6_strip_idempotent_witness :
    strip_protection sampleFs "good.mer" = Except.ok sampleFsStripped ∧
    (is_protected sampleFsStripped "good.mer" = Except.ok false ∧
      ∃ fs2, strip_protection sampleFsStripped "good.mer" = Except.ok fs2 ∧
        is_protected fs2 "good.mer" = Except.ok false) :=
  ⟨by rfl, C6_strip_idempotent sampleFs "good.mer" sampleFsStripped (by rfl)⟩

/-- C10: on a container whose decoded `major_rev` is below 5 but which
already has a `/FILE_PROTECTION` stream, `strip_protection` fails with an
I/O error (creating the existing stream fails) and never succeeds. -/
theorem C10_old_format_existing_protection (fs : FileSystem) (path : String)
    (c : Container) (v : FileVersion) (pb : Bytes)
    (hopen : cfbOpen fs path = Except.ok c)
    (hver : get_version fs path = Except.ok v) (hmaj : v.major_rev < 5)
    (hfp : c.getStream "/FILE_PROTECTION" = some pb) :
    strip_protection fs path =
      Except.error (FtvFileError.IoError IoErrorKind.AlreadyExists) := by
  obtain ⟨vd, hvd, hlen, hv⟩ := get_version_ok_inv fs path c v hopen hver
  have hmaj' : vd.getD 1 0 < 5 := by
    rw [hv] at hmaj
    exact hmaj
  exact strip_old_already_exists fs path c vd pb hopen hvd hlen hmaj' hfp

/-- Witness for C10: `oldfp.mer` decodes as version 4.0 yet already has a
protection stream, so stripping fails with the `AlreadyExists` I/O
error. -/
theorem C10_old_format_existing_protection_witness :
    (get_version sampleFs "oldfp.mer" = Except.ok ⟨4, 0⟩ ∧
      sampleOldLocked.getStream "/FILE_PROTECTION" =
        some [0x00, 0x03, 0x00, 0x00, 0x00, 0x00, 0x00]) ∧
    strip_protection sampleFs "oldfp.mer" =
      Except.error (FtvFileError.IoError IoErrorKind.AlreadyExists) :=
  ⟨⟨by rfl, by rfl⟩,
   C10_old_format_existing_protection sampleFs "oldfp.mer" sampleOldLocked
     ⟨4, 0⟩ [0x00, 0x03, 0x00, 0x00, 0x00, 0x00, 0x00]
     (by rfl) (by rfl) (by decide) (by rfl)⟩

/-- C2 as stated is false for `strip_protections`: a 2-path batch whose
first path lacks a version stream yields one collapsed error for the whole
batch, not one result per input path. -/
theorem C2_counterexample :
    strip_protections sampleFs ["bad.mer", "good.mer"] =
      Except.error (FtvFileError.FileTypeError FTypeError.NoVersion) := by
  rfl

/-- C2 amended: `get_versions` and `are_protected` return one result per
input path, in input order, each path processed independently;
`strip_protections` instead collapses the batch into a single result that
is `ok` only when every path succeeds and otherwise is the error of a
failing path. -/
theorem C2_batch_behavior (fs : FileSystem) (files : List String) (i : Nat)
    (f : String) (rest : List String) :
    (get_versions fs files).length = files.length ∧
    (get_versions fs files)[i]? = (files[i]?).map (fun p => get_version fs p) ∧
    (are_protected fs files).length = files.length ∧
    (are_protected fs files)[i]? = (files[i]?).map (fun p => is_protected fs p) ∧
    (∀ e, strip_protection fs f = Except.error e →
      strip_protections fs (f :: rest) = Except.error e) ∧
    (∀ fs2, strip_protection fs f = Except.ok fs2 →
      strip_protections fs (f :: rest) = strip_protections fs2 rest) := by
  refine ⟨?_, ?_, ?_, ?_, ?_, ?_⟩
  · simp [get_versions]
  · simp [get_versions]
  · simp [are_protected]
  · simp [are_protected]
  · intro e he
    simp [strip_protections, he]
  · intro fs2 h2
    simp [strip_protections, h2]

/-- Witness for C2's amended claim on concrete inputs: per-item results
for the readers, collapsed single error for the stripper. -/
theorem C2_batch_behavior_witness :
    (get_versions sampleFs ["bad.mer", "good.mer"]).length = 2 ∧
    strip_protection sampleFs "bad.mer" =
      Except.error (FtvFileError.FileTypeError FTypeError.NoVersion) ∧
    strip_protections sampleFs ["bad.mer", "good.mer"] =
      Except.error (FtvFileError.FileTypeError FTypeError.NoVersion) :=
  ⟨(C2_batch_behavior sampleFs ["bad.mer", "good.mer"] 0 "bad.mer" ["good.mer"]).1,
   by rfl,
   (C2_batch_behavior sampleFs ["bad.mer", "good.mer"] 0 "bad.mer"
     ["good.mer"]).2.2.2.2.1 (FtvFileError.FileTypeError FTypeError.NoVersion) (by rfl)⟩

end AbVersions
